import Mathlib

/-!
Verification of the minion process-sandboxing library (Linux backend).

Each definition below is a shallow embedding of a function of the Rust
source; file and line references point into the repository.  Machine
integers (`u64`, `i64`, ...) are modelled as `Nat`/`Int` with an explicit
`% 2^64` where wrap-around matters.  Fallible operations return `Option`
or a dedicated outcome type; a Rust `panic!`/failed `assert!` is modelled
by an explicit `panicked` constructor.
-/

namespace Minion

/-! ### UID allocator — src/src/linux/uid_alloc.rs

`UidAllocator` holds `low`, `high` and a set of in-use ids behind a
mutex.  `allocate` scans `low..high` for the first id not in the set
(`used.insert(uid)` returns `true` exactly when `uid` was absent),
inserts it and returns it; `deallocate` removes and asserts the id was
present (`assert!(used.remove(&uid))`). -/

structure UidAllocator where
  low : ℕ
  high : ℕ
  used : Finset ℕ
deriving DecidableEq

namespace UidAllocator

/-- `UidAllocator::allocate` (uid_alloc.rs:22-30): first free id in
`[low, high)`, inserted into the in-use set. -/
def allocate (s : UidAllocator) : Option (ℕ × UidAllocator) :=
  match (List.range' s.low (s.high - s.low)).find? (fun u => decide (u ∉ s.used)) with
  | some u => some (u, { s with used := insert u s.used })
  | none => none

/-- `UidAllocator::deallocate` (uid_alloc.rs:32-35): removes the id,
`none` models the failed `assert!` (a panic). -/
def deallocate (s : UidAllocator) (uid : ℕ) : Option UidAllocator :=
  if uid ∈ s.used then some { s with used := s.used.erase uid } else none

/-- A client-visible operation on the allocator. -/
inductive Op where
  | alloc : Op
  | dealloc : ℕ → Op
deriving DecidableEq

/-- Run one operation; `none` once a panic happened (`deallocate` of an
id not in use aborts the process). An exhausted `allocate` leaves the
state unchanged, as in the source. -/
def step (s : UidAllocator) (op : Op) : Option UidAllocator :=
  match op with
  | .alloc => match s.allocate with
    | some (_, s') => some s'
    | none => some s
  | .dealloc u => s.deallocate u

/-- Run a sequence of operations, absorbing a panic. -/
def runOps (s : UidAllocator) : List Op → Option UidAllocator
  | [] => some s
  | op :: rest => match s.step op with
    | some s' => runOps s' rest
    | none => none

end UidAllocator

/-! ### Resource limits — src/src/linux/limits.rs, limits/prlimit.rs -/

/-- `ResourceLimits` (limits.rs:23-27); `pids_max : u32`,
`memory_max : u64`, `cpu_usage : u64` (nanoseconds). -/
structure ResourceLimits where
  pids_max : ℕ
  memory_max : ℕ
  cpu_usage : ℕ
deriving DecidableEq

/-- `PrlimitEnter` (prlimit.rs:22-24): the enter-handle of the prlimit
driver just carries the numeric limits. -/
structure PrlimitEnter where
  limits : ResourceLimits
deriving DecidableEq

/-- `Prlimit` (prlimit.rs:16-19): the per-process-limits driver state.
The `groups` map's values (`Group { zygote: None }` at creation) carry
no information relevant here, so the map is modelled by its key set. -/
structure Prlimit where
  groups : Finset String
  allow_multiple_processes : Bool

/-- Outcome of `Prlimit::create_group`. -/
inductive CreateGroupResult where
  /-- `Err(PrlimitError::PidsLimitEnforcementImpossible)` -/
  | pidsLimitEnforcementImpossible : CreateGroupResult
  /-- the failed `assert!(prev.is_none())` -/
  | panicked : CreateGroupResult
  | ok : PrlimitEnter → Prlimit → CreateGroupResult

/-- `Prlimit::create_group` (prlimit.rs:86-102): rejects
`pids_max > 1` without `allow_multiple_processes`; otherwise inserts
the group (asserting it was absent) and returns the enter-handle. -/
def Prlimit.create_group (s : Prlimit) (group_id : String) (limits : ResourceLimits) :
    CreateGroupResult :=
  if limits.pids_max > 1 && !s.allow_multiple_processes then
    .pidsLimitEnforcementImpossible
  else if group_id ∈ s.groups then
    .panicked
  else
    .ok ⟨limits⟩ { s with groups := insert group_id s.groups }

/-- `process_driver_kind` for `ResourceDriverKind::Prlimit`
(limits.rs:192-194): the driver is built with
`allow_many_pids: !settings.rootless`. -/
def prlimitAllowManyPids (rootless : Bool) : Bool := !rootless

/-- The resources `PrlimitEnter::join` (prlimit.rs:42-78) passes to
`setrlimit`, in order; each entry is `(resource, soft, hard)`.
`u64` subtraction wraps, hence the explicit `% 2^64` in the `CPU`
computation (`(cpu_usage - 1) / 1_000_000_000 + 1`); a debug build
instead aborts on the underflow at `cpu_usage = 0`. -/
def PrlimitEnter.joinSettings (h : PrlimitEnter) : List (String × ℕ × ℕ) :=
  let cpu_usage_limit := (h.limits.cpu_usage + (2 ^ 64 - 1)) % 2 ^ 64 / 1000000000 + 1
  [ ("RLIMIT_DATA", h.limits.memory_max, h.limits.memory_max)
  , ("RLIMIT_NPROC", h.limits.pids_max, h.limits.pids_max)
  , ("RLIMIT_CPU", cpu_usage_limit, cpu_usage_limit) ]

/-! ### Watchdog — src/src/linux/sandbox/watchdog.rs -/

/-- `Event` (watchdog.rs:10-14); `Heartbeat` is sent before the limit
check and is not part of the tick logic modelled here. -/
inductive WatchdogEvent where
  | cpuTle : WatchdogEvent
  | realTle : WatchdogEvent
deriving DecidableEq

/-- Result of one tick of the limit check. -/
structure TickResult where
  /-- the event sent on the channel, if any -/
  event : Option WatchdogEvent
  /-- the zygote cell after the tick (`zyg.take()` sets it to `none`) -/
  cell : Option ℕ
  /-- the boolean the blocking task returns; `true` breaks the loop -/
  exited : Bool
deriving DecidableEq

/-- One tick of the watchdog's blocking limit check (watchdog.rs:49-97).
`usageRead = none` models a failed `driver.get_cpu_usage`, which the
code replaces by `u64::max_value()`.  `cell` is the shared
`Arc<Mutex<Option<ZygoteInfo>>>`, with the zygote identified by its
pid. -/
def watchdogTick (usageRead : Option ℕ) (elapsed cpu_time_limit real_time_limit : ℕ)
    (cell : Option ℕ) : TickResult :=
  let current_usage := usageRead.getD (2 ^ 64 - 1)
  let was_cpu_tle := current_usage > cpu_time_limit
  let was_real_tle := elapsed > real_time_limit
  if ¬was_cpu_tle ∧ ¬was_real_tle then
    { event := none, cell := cell, exited := false }
  else
    { event := if was_cpu_tle then some .cpuTle
               else if was_real_tle then some .realTle else none
      cell := none
      exited := true }

/-! ### Cgroup v2 `cpu.stat` parsing — src/src/linux/limits/cgroup_v2.rs

Lines are modelled as `List Char` (the pieces produced by Rust's
`str::lines`, which already strips the line terminators). -/

/-- Recursion core of `trimStartMatchesList`; the fuel bounds the
number of removals (each removal drops at least one character, so
`s.length` steps always suffice). -/
def trimStartGo : ℕ → List Char → List Char → List Char
  | 0, _, s => s
  | fuel + 1, p, s =>
    if p ≠ [] ∧ p.isPrefixOf s then trimStartGo fuel p (s.drop p.length) else s

/-- Rust `str::trim_start_matches`: repeatedly removes the pattern from
the front while it is a prefix. -/
def trimStartMatchesList (p s : List Char) : List Char :=
  trimStartGo s.length p s

/-- Rust `str::trim_end_matches(c)`: removes every trailing `c`. -/
def trimEndMatchesChar (c : Char) (s : List Char) : List Char :=
  (s.reverse.dropWhile (fun x => x = c)).reverse

/-- Rust `str::parse::<u64>`: an optional `+` sign, then at least one
decimal digit; fails on any other character and on values ≥ 2^64. -/
def parseU64 (s : List Char) : Option ℕ :=
  let t := match s with
    | '+' :: rest => rest
    | _ => s
  if t ≠ [] ∧ t.all Char.isDigit then
    let v := t.foldl (fun acc c => acc * 10 + (c.toNat - '0'.toNat)) 0
    if v < 2 ^ 64 then some v else none
  else none

/-- The per-line step of `CgroupV2::get_cpu_usage` (cgroup_v2.rs:33-41):
for a line starting with `"usage_usec"`, the value obtained after
`trim_start_matches("usage_usec ")`, `trim_end_matches('\n')` and
`parse::<u64>`; `none` when the line does not start with the keyword or
the parse fails. -/
def lineValue (line : List Char) : Option ℕ :=
  if (String.toList "usage_usec").isPrefixOf line then
    parseU64
      (trimEndMatchesChar '\n'
        (trimStartMatchesList (String.toList "usage_usec ") line))
  else none

/-- One iteration of the loop in `CgroupV2::get_cpu_usage`
(cgroup_v2.rs:32-43): a line whose `lineValue` parses replaces the
value by the parse result times 1000 (`val *= 1000` wraps at 2^64);
any other line leaves it unchanged. -/
def cpuStatStep (val : ℕ) (line : List Char) : ℕ :=
  match lineValue line with
  | some v => v * 1000 % 2 ^ 64
  | none => val

/-- `CgroupV2::get_cpu_usage` (cgroup_v2.rs:29-45) applied to the
contents of `cpu.stat`, given as its list of lines: start from
`u64::max_value()` and run the loop over all lines. -/
def getCpuUsage (lines : List (List Char)) : ℕ :=
  lines.foldl cpuStatStep (2 ^ 64 - 1)

/-- `InternalResourceUsageData` (limits.rs:14-19). -/
structure InternalResourceUsageData where
  time : ℕ
  memory : Option ℕ
deriving DecidableEq

/-- `CgroupV2::resource_usage` (cgroup_v2.rs:103-108) on the contents
of `cpu.stat`: always `Ok`, with `time` from `get_cpu_usage` and
`memory: None`. -/
def cgroupV2ResourceUsage (lines : List (List Char)) : InternalResourceUsageData :=
  { time := getCpuUsage lines, memory := none }

/-! ### IPC socket framing — src/src/linux/ipc.rs

A `SOCK_SEQPACKET` datagram is a list of bytes. `usize`/`u64` values
are laid out with `to_ne_bytes`; the supported targets are
little-endian, which is what `leBytes` encodes. -/

/-- `k`-byte little-endian encoding of `n`. -/
def leBytes : ℕ → ℕ → List ℕ
  | 0, _ => []
  | k + 1, n => n % 256 :: leBytes k (n / 256)

/-- Little-endian decoding of a byte list. -/
def fromLeBytes : List ℕ → ℕ
  | [] => 0
  | b :: rest => b + 256 * fromLeBytes rest

/-- `Socket::send` (ipc.rs:51-68): two `sendmsg` calls.  The first
datagram gathers `message.len().to_ne_bytes()` and the 8-byte hashed
`TypeId` of the payload type; the second carries the serialized
message. -/
def socketSend (tyId : ℕ) (message : List ℕ) : List (List ℕ) :=
  [leBytes 8 message.length ++ leBytes 8 tyId, message]

/-- Outcome of `Socket::recv`. -/
inductive RecvResult where
  /-- the `assert_eq!(id, typeid::<T>())` failed -/
  | panicked : RecvResult
  /-- the body bytes handed to `serde_json::from_slice` -/
  | ok : List ℕ → RecvResult
deriving DecidableEq

/-- `Socket::recv` (ipc.rs:70-96): reads 8 length bytes and 8 type-id
bytes from the first datagram, asserts the type id, then reads `len`
bytes of body from the second datagram (`recvmsg` into a buffer of
`len` bytes truncates a longer datagram). -/
def socketRecv (expectedTyId : ℕ) : List (List ℕ) → RecvResult
  | [d1, d2] =>
    let len := fromLeBytes (d1.take 8)
    let id := fromLeBytes ((d1.drop 8).take 8)
    if id ≠ expectedTyId then .panicked else .ok (d2.take len)
  | _ => .panicked

/-! ### The `GetExitCode` reply channel — src/src/linux/zygote/main_loop.rs
and src/src/linux/sandbox.rs

The serde layer is modelled one level above raw bytes: a message is a
(type id, integer payload) pair, since `serde_json` round-trips
integers exactly.  `typeid::<T>()` (ipc.rs:151-160) hashes
`TypeId::of::<T>()`; distinct Rust types have distinct `TypeId`s, so it
is modelled as an injective tag. -/

/-- The Rust types that travel over the zygote socket as top-level
`send::<T>`/`recv::<T>` type parameters in the exit-code path. -/
inductive WireType where
  | i32 : WireType
  | i64 : WireType
deriving DecidableEq

/-- A serialized message: the hashed `TypeId` tag plus the JSON integer
payload. -/
structure WireMsg where
  tag : WireType
  payload : ℤ
deriving DecidableEq

/-- How a child's wait status is known to the zygote
(`nix::sys::wait::WaitStatus` restricted to the two cases
`process_get_exit_code_query` handles). -/
inductive WaitSt where
  | exited : ℤ → WaitSt
  | signaled : ℕ → WaitSt
deriving DecidableEq

/-- Modelled from the spec: the `ExitCode` constants are referenced by
src/src/linux/sandbox.rs and main_loop.rs but the type itself is not
part of the source tree.  Per the spec, "values ≥ 1000 encode Linux
signals (`1000 + signum`)", so `ExitCode::SIGNALLED.0 = 1000`, and
`KILLED` is a distinguished sentinel (`EXIT_CODE_KILLED` in lib.rs is
`0x7eaddeadbeeff00d`). -/
def exitCodeSignalled : ℤ := 1000

/-- Modelled from the spec: the `ExitCode::KILLED` sentinel. -/
def exitCodeKilled : ℤ := 0x7eaddeadbeeff00d

/-- `Zygote::process_get_exit_code_query` (main_loop.rs:125-153): the
reply it sends for a completed task — `send::<i64>` of the exit status
for a normal exit, and `send::<i64>` of `signum + SIGNALLED` for a
signal death (the pre-recorded `task.exit_code` path, filled in by
`reap_child`, encodes signals the same way, main_loop.rs:177-180). -/
def zygoteExitCodeReply : WaitSt → WireMsg
  | .exited code => { tag := .i64, payload := code }
  | .signaled s => { tag := .i64, payload := (s : ℤ) + exitCodeSignalled }

/-- Outcome of `LinuxSandbox::get_exit_code`. -/
inductive GetExitCodeResult where
  /-- `Socket::recv::<i32>` hit its `assert_eq!` and panicked -/
  | panicked : GetExitCodeResult
  /-- `ExitCode(ec.into())` -/
  | code : ℤ → GetExitCodeResult
  /-- `ExitCode::KILLED` on a recv error -/
  | killed : GetExitCodeResult
deriving DecidableEq

/-- `LinuxSandbox::get_exit_code` (sandbox.rs:261-269) applied to the
zygote's reply: `sock.recv::<i32>()`, whose
`assert_eq!(id, typeid::<i32>())` (ipc.rs:85) panics when the reply
carries a different type tag; a successful deserialization requires
the payload to fit in an `i32`, and a recv `Err` maps to
`ExitCode::KILLED`. -/
def getExitCode (reply : WireMsg) : GetExitCodeResult :=
  if reply.tag ≠ WireType.i32 then .panicked
  else if (-(2 ^ 31) : ℤ) ≤ reply.payload ∧ reply.payload < 2 ^ 31 then .code reply.payload
  else .killed

/-! ### `GetResourceUsage` — src/src/linux/zygote/main_loop.rs -/

/-- `libc::timeval`: seconds and microseconds. -/
structure Timeval where
  tv_sec : ℤ
  tv_usec : ℤ
deriving DecidableEq

/-- The fields of `libc::rusage` that `process_resource_usage_query`
reads. -/
structure Rusage where
  ru_utime : Timeval
  ru_stime : Timeval
  ru_maxrss : ℤ
deriving DecidableEq

/-- `parse_timeval` (main_loop.rs:277-279):
`(tv.tv_usec + tv.tv_sec * 1_000_000_000) as u64`. -/
def parse_timeval (tv : Timeval) : ℕ :=
  ((tv.tv_usec + tv.tv_sec * 1000000000) % 2 ^ 64).toNat

/-- `ResourceUsageInformation` (jail_common.rs:70-74). -/
structure ResourceUsageInformation where
  memory : ℕ
  cpu : ℕ
deriving DecidableEq

/-- `Zygote::process_resource_usage_query` (main_loop.rs:191-207): the
reply built from a successful `getrusage(RUSAGE_CHILDREN)` —
`memory: ru_maxrss as u64`, `cpu: parse_timeval(utime) +
parse_timeval(stime)` (`u64` addition, hence `% 2^64`). -/
def resourceUsageReply (usage : Rusage) : ResourceUsageInformation :=
  { memory := (usage.ru_maxrss % 2 ^ 64).toNat
    cpu := (parse_timeval usage.ru_utime + parse_timeval usage.ru_stime) % 2 ^ 64 }

/-! ### Stdio specifications — src/src/linux.rs -/

/-- `InputSpecificationData` (lib.rs:137-142). -/
inductive InputSpecificationData where
  | null : InputSpecificationData
  | empty : InputSpecificationData
  | pipe : InputSpecificationData
  | handle : ℕ → InputSpecificationData
deriving DecidableEq

/-- `OutputSpecificationData` (lib.rs:176-182). -/
inductive OutputSpecificationData where
  | null : OutputSpecificationData
  | ignore : OutputSpecificationData
  | pipe : OutputSpecificationData
  | buffer : Option ℕ → OutputSpecificationData
  | handle : ℕ → OutputSpecificationData
deriving DecidableEq

/-- How a file is opened.  `Rust std` semantics: `File::create` opens
write-only with create + truncate (`O_WRONLY | O_CREAT | O_TRUNC`);
`File::open` opens read-only (`O_RDONLY`). -/
inductive OpenMode where
  | readOnly : OpenMode
  | writeOnlyCreateTrunc : OpenMode
deriving DecidableEq

/-- The child-side FD produced for one stdio slot. -/
inductive ChildSideFd where
  /-- no FD in this slot -/
  | absent : ChildSideFd
  /-- one end of a fresh pipe (the other end stays with the caller) -/
  | pipeEnd : ChildSideFd
  /-- a caller-relinquished handle -/
  | callerHandle : ℕ → ChildSideFd
  /-- `/dev/null` opened with the given mode -/
  | devNull : OpenMode → ChildSideFd
  /-- a duplicated memfd -/
  | memfd : ChildSideFd
deriving DecidableEq

/-- `handle_input_io` (linux.rs:96-118), restricted to the child-side
FD it produces.  `Empty` runs `fs::File::create("/dev/null")`. -/
def handle_input_io : InputSpecificationData → ChildSideFd
  | .pipe => .pipeEnd
  | .handle h => .callerHandle h
  | .empty => .devNull .writeOnlyCreateTrunc
  | .null => .absent

/-- `handle_output_io` (linux.rs:120-158), restricted to the child-side
FD it produces.  `Ignore` runs `fs::File::open("/dev/null")`. -/
def handle_output_io : OutputSpecificationData → ChildSideFd
  | .null => .absent
  | .handle h => .callerHandle h
  | .pipe => .pipeEnd
  | .ignore => .devNull .readOnly
  | .buffer _ => .memfd

/-! ### `Drop for LinuxSandbox` — src/src/linux/sandbox.rs -/

/-- The externally visible steps of the destructor. -/
inductive DropAction where
  | releasedUid : ℕ → DropAction
  | killedZygote : DropAction
  | deletedResourceGroup : DropAction
deriving DecidableEq

/-- Outcome of the destructor: the actions performed, and whether it
panicked along the way. -/
inductive DropOutcome where
  | done : List DropAction → DropOutcome
  | panicked : List DropAction → DropOutcome
deriving DecidableEq

/-- The destructor-relevant state of a `LinuxSandbox` plus its
environment: the optional `(allocator, uid)` reclaim record, whether
`self.kill()` (a real syscall sequence) succeeds, and whether the
`MINION_DEBUG_KEEP_CGROUPS` environment variable is set. -/
structure DropEnv where
  dealloc_uid : Option ℕ
  kill_succeeds : Bool
  keep_cgroups_env : Bool
deriving DecidableEq

/-- `impl Drop for LinuxSandbox` (sandbox.rs:272-290): reclaim the UID
if one was allocated; then `self.kill()`, and
`panic!("unable to kill sandbox: ...")` on its error; then
`drop_cgroup` unless `MINION_DEBUG_KEEP_CGROUPS` is set (`drop_cgroup`
itself swallows errors). -/
def sandboxDrop (env : DropEnv) : DropOutcome :=
  let uidActs := match env.dealloc_uid with
    | some uid => [DropAction.releasedUid uid]
    | none => []
  if env.kill_succeeds then
    if env.keep_cgroups_env then
      .done (uidActs ++ [.killedZygote])
    else
      .done (uidActs ++ [.killedZygote, .deletedResourceGroup])
  else
    .panicked uidActs

/-! ## Helper lemmas -/

theorem length_leBytes (k n : ℕ) : (leBytes k n).length = k := by
  induction k generalizing n with
  | zero => rfl
  | succ k ih => simp [leBytes, ih]

theorem take_append_of_length_eq {α : Type} {A : List α} (B : List α) {n : ℕ}
    (h : A.length = n) : (A ++ B).take n = A := by
  subst h; exact List.take_left A B

theorem drop_append_of_length_eq {α : Type} {A : List α} (B : List α) {n : ℕ}
    (h : A.length = n) : (A ++ B).drop n = B := by
  subst h; exact List.drop_left A B

theorem take_of_length_eq {α : Type} {A : List α} {n : ℕ}
    (h : A.length = n) : A.take n = A := by
  subst h; exact List.take_length A

theorem fromLeBytes_leBytes (k n : ℕ) : fromLeBytes (leBytes k n) = n % 256 ^ k := by
  induction k generalizing n with
  | zero => simp [leBytes, fromLeBytes, Nat.mod_one]
  | succ k ih =>
    have h256 : (256 : ℕ) ^ (k + 1) = 256 * 256 ^ k := by ring
    rw [leBytes, fromLeBytes, ih, h256, Nat.mod_mul]

/-! ## Claim theorems -/

/-- Claim C1 (code bug): the zygote's `GetExitCode` reply does carry
the raw status `k` (resp. `1000 + s` for a signal death), but it is
sent as `send::<i64>` while `LinuxSandbox::get_exit_code` performs
`recv::<i32>`, so the `assert_eq!(id, typeid::<T>())` in
`Socket::recv` fires and the call panics instead of reporting the exit
code. -/
theorem c1_exit_code_path_panics :
    zygoteExitCodeReply (.exited 0) = { tag := .i64, payload := 0 } ∧
    zygoteExitCodeReply (.signaled 9) = { tag := .i64, payload := 1000 + 9 } ∧
    getExitCode (zygoteExitCodeReply (.exited 0)) = .panicked ∧
    getExitCode (zygoteExitCodeReply (.signaled 9)) = .panicked ∧
    getExitCode (zygoteExitCodeReply (.exited 0)) ≠ .code 0 := by
  refine ⟨rfl, by decide, by decide, by decide, by decide⟩

/-- Claim C2 (code bug): `parse_timeval` computes
`tv_usec + tv_sec * 10^9`, leaving the microseconds unconverted, so a
`rusage` of 0.5 s user time yields `cpu = 500000`, not the
`tv_sec * 10^9 + tv_usec * 10^3 = 5 * 10^8` nanoseconds the claim (and
the `cpu ... in ns` contract) requires.  The memory field does equal
`ru_maxrss`. -/
theorem c2_parse_timeval_drops_usec_factor :
    parse_timeval { tv_sec := 0, tv_usec := 500000 } = 500000 ∧
    resourceUsageReply
        { ru_utime := { tv_sec := 0, tv_usec := 500000 }
          ru_stime := { tv_sec := 0, tv_usec := 0 }
          ru_maxrss := 1024 } =
      { memory := 1024, cpu := 500000 } ∧
    (500000 : ℕ) ≠ 0 * 10 ^ 9 + 500000 * 10 ^ 3 := by
  refine ⟨by decide, by decide, by decide⟩

/-- Claim C3 (code bug): for `Empty` stdin the code runs
`fs::File::create("/dev/null")`, which opens write-only (with
create+truncate), not `O_RDONLY`; for `Ignore` output it runs
`fs::File::open("/dev/null")`, which opens read-only, not `O_WRONLY`.
The two open modes are exactly swapped relative to the claim. -/
theorem c3_dev_null_modes_inverted :
    handle_input_io .empty = .devNull .writeOnlyCreateTrunc ∧
    handle_input_io .empty ≠ .devNull .readOnly ∧
    handle_output_io .ignore = .devNull .readOnly ∧
    handle_output_io .ignore ≠ .devNull .writeOnlyCreateTrunc := by
  refine ⟨rfl, by decide, rfl, by decide⟩

/-- Claim C4, counterexample: with `cpu_time_limit = u64::MAX` a failed
CPU-usage read is substituted by `u64::max_value()`, which does not
exceed the limit, so — contrary to the claim that a read failure is
treated as the limit being exceeded and the zygote cell is taken — the
tick emits nothing, leaves the cell untouched and keeps looping. -/
theorem c4_read_failure_not_exceeded_at_max_limit :
    watchdogTick none 0 (2 ^ 64 - 1) 0 (some 7) =
      { event := none, cell := some 7, exited := false } ∧
    (watchdogTick none 0 (2 ^ 64 - 1) 0 (some 7)).cell ≠ none := by
  refine ⟨by decide, by decide⟩

/-- Claim C4, amended: on every watchdog tick, a failure to read CPU
usage is treated as usage `u64::MAX`, hence as the CPU limit being
exceeded whenever `cpu_time_limit < u64::MAX`; if the (read or
substituted) usage exceeds `cpu_time_limit` a `CpuTle` event is
emitted, otherwise if elapsed wall time exceeds `real_time_limit` a
`RealTle` event is emitted — never both — and in either case the
zygote cell is set to `none` and the loop exits; when neither limit is
exceeded and the usage was read successfully the cell is left
unchanged and the loop continues. -/
theorem c4_watchdog_tick_behaviour (usageRead : Option ℕ)
    (elapsed cl rl : ℕ) (cell : Option ℕ) :
    (usageRead = none → cl < 2 ^ 64 - 1 →
      watchdogTick usageRead elapsed cl rl cell =
        { event := some .cpuTle, cell := none, exited := true }) ∧
    (∀ u, usageRead = some u → u > cl →
      watchdogTick usageRead elapsed cl rl cell =
        { event := some .cpuTle, cell := none, exited := true }) ∧
    (∀ u, usageRead = some u → u ≤ cl → elapsed > rl →
      watchdogTick usageRead elapsed cl rl cell =
        { event := some .realTle, cell := none, exited := true }) ∧
    (∀ u, usageRead = some u → u ≤ cl → elapsed ≤ rl →
      watchdogTick usageRead elapsed cl rl cell =
        { event := none, cell := cell, exited := false }) := by
  refine ⟨?_, ?_, ?_, ?_⟩
  · rintro rfl hcl
    simp only [watchdogTick, Option.getD_none]
    rw [if_neg]
    · rw [if_pos]
      omega
    · push_neg
      intro h
      omega
  · rintro u rfl hu
    simp only [watchdogTick, Option.getD_some]
    rw [if_neg, if_pos hu]
    push_neg
    intro h
    omega
  · rintro u rfl hu helapsed
    simp only [watchdogTick, Option.getD_some]
    rw [if_neg, if_neg (by omega), if_pos helapsed]
    push_neg
    intro h
    omega
  · rintro u rfl hu helapsed
    simp only [watchdogTick, Option.getD_some]
    rw [if_pos]
    constructor <;> omega

/-- Witness for `c4_watchdog_tick_behaviour`: the four tick outcomes at
concrete inputs. -/
theorem c4_watchdog_tick_behaviour_witness :
    watchdogTick none 0 5 0 (some 1) =
      { event := some .cpuTle, cell := none, exited := true } ∧
    watchdogTick (some 9) 0 5 0 (some 1) =
      { event := some .cpuTle, cell := none, exited := true } ∧
    watchdogTick (some 3) 7 5 0 (some 1) =
      { event := some .realTle, cell := none, exited := true } ∧
    watchdogTick (some 3) 0 5 0 (some 1) =
      { event := none, cell := some 1, exited := false } :=
  ⟨(c4_watchdog_tick_behaviour none 0 5 0 (some 1)).1 rfl (by norm_num),
   (c4_watchdog_tick_behaviour (some 9) 0 5 0 (some 1)).2.1 9 rfl (by norm_num),
   (c4_watchdog_tick_behaviour (some 3) 7 5 0 (some 1)).2.2.1 3 rfl (by norm_num) (by norm_num),
   (c4_watchdog_tick_behaviour (some 3) 0 5 0 (some 1)).2.2.2 3 rfl (by norm_num) (by norm_num)⟩

/-- Claim C5: `Prlimit::create_group` fails with
`PidsLimitEnforcementImpossible` exactly when the requested `pids_max`
exceeds 1 and `allow_multiple_processes` is false;
`allow_multiple_processes` is set to `!settings.rootless` by
`process_driver_kind`, so it is false exactly when `rootless` is true;
and otherwise (for a fresh group id) the group is recorded and the
returned enter-handle carries the numeric limits. -/
theorem c5_prlimit_create_group (s : Prlimit) (gid : String) (l : ResourceLimits) :
    (s.create_group gid l = .pidsLimitEnforcementImpossible ↔
      l.pids_max > 1 ∧ s.allow_multiple_processes = false) ∧
    (∀ rootless : Bool, prlimitAllowManyPids rootless = false ↔ rootless = true) ∧
    (gid ∉ s.groups → (l.pids_max ≤ 1 ∨ s.allow_multiple_processes = true) →
      s.create_group gid l = .ok ⟨l⟩ { s with groups := insert gid s.groups }) := by
  refine ⟨?_, ?_, ?_⟩
  · by_cases h1 : l.pids_max > 1 <;> by_cases h2 : s.allow_multiple_processes <;>
      by_cases h3 : gid ∈ s.groups <;>
      simp [Prlimit.create_group, h1, h2, h3]
  · intro rootless
    cases rootless <;> simp [prlimitAllowManyPids]
  · intro hfresh hok
    have hcond : ¬(l.pids_max > 1 ∧ s.allow_multiple_processes = false) := by
      rcases hok with h | h
      · exact fun hc => by omega
      · exact fun hc => by simp [h] at hc
    by_cases h1 : l.pids_max > 1 <;> by_cases h2 : s.allow_multiple_processes <;>
      simp_all [Prlimit.create_group]

/-- Witness for `c5_prlimit_create_group`: a fresh group with
`pids_max = 1` is recorded and its limits returned. -/
theorem c5_prlimit_create_group_witness :
    Prlimit.create_group ⟨∅, true⟩ "g" ⟨1, 0, 0⟩ =
      .ok ⟨⟨1, 0, 0⟩⟩ ⟨{"g"}, true⟩ :=
  (c5_prlimit_create_group ⟨∅, true⟩ "g" ⟨1, 0, 0⟩).2.2
    (by simp) (Or.inl (by norm_num))

/-- Claim C6, counterexample: when `self.kill()` fails the destructor
executes `panic!("unable to kill sandbox: ...")` (sandbox.rs:281-283)
instead of swallowing the error, contradicting "never panics"; the UID
has been released by then and the resource group is not deleted. -/
theorem c6_drop_panics_on_kill_failure :
    sandboxDrop { dealloc_uid := some 42, kill_succeeds := false, keep_cgroups_env := false } =
      .panicked [.releasedUid 42] := by decide

/-- Claim C6, amended: the destructor performs, in order, release of
the allocated sandbox UID (when one was allocated), killing the
zygote, and deletion of the resource group — the deletion being
skipped when `MINION_DEBUG_KEEP_CGROUPS` is set; UID release and
group deletion swallow errors, but a failure of the kill step makes
the destructor panic after the UID release, skipping the deletion. -/
theorem c6_sandbox_drop_behaviour (env : DropEnv) :
    (env.kill_succeeds = true → env.keep_cgroups_env = false →
      sandboxDrop env = .done
        ((match env.dealloc_uid with
          | some uid => [DropAction.releasedUid uid]
          | none => []) ++ [.killedZygote, .deletedResourceGroup])) ∧
    (env.kill_succeeds = true → env.keep_cgroups_env = true →
      sandboxDrop env = .done
        ((match env.dealloc_uid with
          | some uid => [DropAction.releasedUid uid]
          | none => []) ++ [.killedZygote])) ∧
    (env.kill_succeeds = false →
      sandboxDrop env = .panicked
        (match env.dealloc_uid with
          | some uid => [DropAction.releasedUid uid]
          | none => [])) := by
  obtain ⟨uid, kill, keep⟩ := env
  refine ⟨?_, ?_, ?_⟩ <;> rintro rfl <;> try rintro rfl
  all_goals simp [sandboxDrop]

/-- Witness for `c6_sandbox_drop_behaviour`: a successful destruction
performs all three steps in order. -/
theorem c6_sandbox_drop_behaviour_witness :
    sandboxDrop { dealloc_uid := some 3, kill_succeeds := true, keep_cgroups_env := false } =
      .done [.releasedUid 3, .killedZygote, .deletedResourceGroup] :=
  (c6_sandbox_drop_behaviour
    { dealloc_uid := some 3, kill_succeeds := true, keep_cgroups_env := false }).1 rfl rfl

/-- Claim C7, counterexample: the first datagram of `Socket::send` is
16 bytes — the 8 length bytes are followed by the 8-byte hashed
`TypeId` — not the claimed 8-byte length alone (here: a 1-byte body
with type id 11). -/
theorem c7_first_datagram_has_type_tag :
    socketSend 11 [48] =
      [[1, 0, 0, 0, 0, 0, 0, 0, 11, 0, 0, 0, 0, 0, 0, 0], [48]] ∧
    ([1, 0, 0, 0, 0, 0, 0, 0, 11, 0, 0, 0, 0, 0, 0, 0] : List ℕ).length = 16 ∧
    ([1, 0, 0, 0, 0, 0, 0, 0, 11, 0, 0, 0, 0, 0, 0, 0] : List ℕ) ≠ leBytes 8 1 := by
  refine ⟨by decide, by decide, by decide⟩

/-- Claim C7, amended: `Socket::send` transmits exactly two datagrams —
the first consisting of the 8-byte little-endian body length followed
by the 8-byte little-endian hashed type id, the second consisting of
exactly the JSON body bytes — and `Socket::recv` inverts this framing,
asserting the type id. -/
theorem c7_socket_framing (tyId : ℕ) (message : List ℕ) :
    socketSend tyId message =
      [leBytes 8 message.length ++ leBytes 8 tyId, message] ∧
    (message.length < 2 ^ 64 → tyId < 2 ^ 64 →
      socketRecv tyId (socketSend tyId message) = .ok message) := by
  refine ⟨rfl, ?_⟩
  intro hlen htid
  have hl8 : (leBytes 8 message.length).length = 8 := length_leBytes 8 message.length
  have ht8 : (leBytes 8 tyId).length = 8 := length_leBytes 8 tyId
  have h1 : (leBytes 8 message.length ++ leBytes 8 tyId).take 8 = leBytes 8 message.length :=
    take_append_of_length_eq _ hl8
  have h2 : (leBytes 8 message.length ++ leBytes 8 tyId).drop 8 = leBytes 8 tyId :=
    drop_append_of_length_eq _ hl8
  have h3 : (leBytes 8 tyId).take 8 = leBytes 8 tyId := take_of_length_eq ht8
  have h256 : (256 : ℕ) ^ 8 = 2 ^ 64 := by norm_num
  have hid : fromLeBytes (leBytes 8 tyId) = tyId := by
    rw [fromLeBytes_leBytes, h256, Nat.mod_eq_of_lt htid]
  have hlen' : fromLeBytes (leBytes 8 message.length) = message.length := by
    rw [fromLeBytes_leBytes, h256, Nat.mod_eq_of_lt hlen]
  simp only [socketSend, socketRecv, h1, h2, h3, hid, hlen', ne_eq,
    not_true_eq_false, if_false, List.take_length]

/-- Witness for `c7_socket_framing`: a send/recv round trip on a
concrete message. -/
theorem c7_socket_framing_witness :
    socketRecv 3 (socketSend 3 [7, 8]) = .ok [7, 8] :=
  (c7_socket_framing 3 [7, 8]).2 (by norm_num) (by norm_num)

/-- Claim C8, counterexample: at `cpu_usage = 0` the computation
`(cpu_usage - 1) / 10^9 + 1` underflows the `u64` subtraction, so
`RLIMIT_CPU` is set to `(2^64 - 1) / 10^9 + 1 = 18446744074` (a debug
build aborts instead), not `ceil(0 / 10^9) = 0` as the claim —
explicitly including `L = 0` — requires. -/
theorem c8_rlimit_cpu_zero_underflows :
    PrlimitEnter.joinSettings ⟨⟨1, 0, 0⟩⟩ =
      [("RLIMIT_DATA", 0, 0), ("RLIMIT_NPROC", 1, 1),
       ("RLIMIT_CPU", 18446744074, 18446744074)] ∧
    (18446744074 : ℕ) ≠ (0 + 10 ^ 9 - 1) / 10 ^ 9 := by
  refine ⟨by decide, by decide⟩

/-- Claim C8, amended: for every CPU-time limit `L ≥ 1` nanoseconds
(a representable `u64`), `PrlimitEnter::join` sets both the soft and
the hard `RLIMIT_CPU` value to `L` rounded up to whole seconds,
`ceil(L / 10^9)`; at `L = 0` the `u64` subtraction in
`(L - 1) / 10^9 + 1` underflows instead. -/
theorem c8_rlimit_cpu_rounding (l : ResourceLimits)
    (h1 : 1 ≤ l.cpu_usage) (h2 : l.cpu_usage < 2 ^ 64) :
    PrlimitEnter.joinSettings ⟨l⟩ =
      [("RLIMIT_DATA", l.memory_max, l.memory_max),
       ("RLIMIT_NPROC", l.pids_max, l.pids_max),
       ("RLIMIT_CPU", (l.cpu_usage + 10 ^ 9 - 1) / 10 ^ 9,
        (l.cpu_usage + 10 ^ 9 - 1) / 10 ^ 9)] := by
  have h64 : (2 : ℕ) ^ 64 = 18446744073709551616 := by norm_num
  have hcpu : (l.cpu_usage + (2 ^ 64 - 1)) % 2 ^ 64 / 1000000000 + 1
      = (l.cpu_usage + 10 ^ 9 - 1) / 10 ^ 9 := by
    rw [h64] at h2 ⊢
    have h9 : (10 : ℕ) ^ 9 = 1000000000 := by norm_num
    rw [h9]
    omega
  simp only [PrlimitEnter.joinSettings, hcpu]

/-- Witness for `c8_rlimit_cpu_rounding`: a 3-second limit (given in
nanoseconds) yields `RLIMIT_CPU = 3`. -/
theorem c8_rlimit_cpu_rounding_witness :
    PrlimitEnter.joinSettings ⟨⟨2, 4096, 3000000000⟩⟩ =
      [("RLIMIT_DATA", 4096, 4096), ("RLIMIT_NPROC", 2, 2),
       ("RLIMIT_CPU", 3, 3)] :=
  c8_rlimit_cpu_rounding ⟨2, 4096, 3000000000⟩ (by norm_num) (by norm_num)

theorem find?_range'_eq_some {p : ℕ → Bool} {start len u : ℕ}
    (h : (List.range' start len).find? p = some u) :
    start ≤ u ∧ u < start + len ∧ p u = true ∧
      ∀ v, start ≤ v → v < u → p v = false := by
  induction len generalizing start with
  | zero => simp [List.range'] at h
  | succ len ih =>
    rw [List.range'_succ] at h
    by_cases hp : p start
    · rw [List.find?_cons_of_pos _ hp] at h
      obtain rfl : start = u := by injection h
      exact ⟨le_refl _, by omega, hp, fun v hv1 hv2 => absurd hv1 (by omega)⟩
    · rw [List.find?_cons_of_neg _ hp] at h
      obtain ⟨h1, h2, h3, h4⟩ := ih h
      refine ⟨by omega, by omega, h3, ?_⟩
      intro v hv1 hv2
      rcases eq_or_lt_of_le hv1 with rfl | hlt
      · exact Bool.eq_false_iff.mpr hp
      · exact h4 v (by omega) hv2

theorem allocate_eq_some {s : UidAllocator} {u : ℕ} {s' : UidAllocator}
    (h : s.allocate = some (u, s')) :
    s.low ≤ u ∧ u < s.high ∧ u ∉ s.used ∧
      (∀ v, s.low ≤ v → v < u → v ∈ s.used) ∧
      s' = { s with used := insert u s.used } := by
  unfold UidAllocator.allocate at h
  cases hf : (List.range' s.low (s.high - s.low)).find? (fun u => decide (u ∉ s.used)) with
  | none => rw [hf] at h; cases h
  | some w =>
    rw [hf] at h
    obtain ⟨hw, hs'⟩ : w = u ∧ { s with used := insert w s.used } = s' := by
      constructor <;> injection h with h' <;> [exact congrArg Prod.fst h';
        exact congrArg Prod.snd h']
    subst hw
    obtain ⟨h1, h2, h3, h4⟩ := find?_range'_eq_some hf
    refine ⟨h1, by omega, by simpa using h3, ?_, hs'.symm⟩
    intro v hv1 hv2
    have := h4 v hv1 hv2
    simpa using this

theorem allocate_eq_none {s : UidAllocator} :
    s.allocate = none ↔ ∀ v, s.low ≤ v → v < s.high → v ∈ s.used := by
  unfold UidAllocator.allocate
  cases hf : (List.range' s.low (s.high - s.low)).find? (fun u => decide (u ∉ s.used)) with
  | none =>
    simp only [true_iff]
    rw [List.find?_eq_none] at hf
    intro v hv1 hv2
    have := hf v (by rw [List.mem_range'_1]; omega)
    simpa using this
  | some w =>
    refine iff_of_false (by simp) ?_
    intro hall
    obtain ⟨h1, h2, h3, _⟩ := find?_range'_eq_some hf
    have hw : w ∈ s.used := hall w h1 (by omega)
    simp only [decide_eq_true_eq] at h3
    exact h3 hw

theorem runOps_preserves_mem {u : ℕ} :
    ∀ (ops : List UidAllocator.Op) (s s' : UidAllocator),
      u ∈ s.used → UidAllocator.Op.dealloc u ∉ ops →
      UidAllocator.runOps s ops = some s' → u ∈ s'.used := by
  intro ops
  induction ops with
  | nil =>
    intro s s' hmem _ hrun
    obtain rfl : s = s' := by injection hrun
    exact hmem
  | cons op rest ih =>
    intro s s' hmem hnotin hrun
    have hnotin' : UidAllocator.Op.dealloc u ∉ rest :=
      fun hc => hnotin (List.mem_cons_of_mem _ hc)
    rw [UidAllocator.runOps] at hrun
    cases op with
    | alloc =>
      cases halloc : s.allocate with
      | none =>
        rw [UidAllocator.step, halloc] at hrun
        exact ih s s' hmem hnotin' hrun
      | some ws =>
        obtain ⟨w, s₀⟩ := ws
        rw [UidAllocator.step, halloc] at hrun
        have hs₀ := (allocate_eq_some halloc).2.2.2.2
        have hmem' : u ∈ s₀.used := by
          rw [hs₀]; exact Finset.mem_insert_of_mem hmem
        exact ih s₀ s' hmem' hnotin' hrun
    | dealloc v =>
      have hvu : v ≠ u := by
        rintro rfl
        exact hnotin (List.mem_cons_self _ _)
      rw [UidAllocator.step, UidAllocator.deallocate] at hrun
      by_cases hv : v ∈ s.used
      · rw [if_pos hv] at hrun
        have hmem' : u ∈ s.used.erase v := Finset.mem_erase.mpr ⟨fun hc => hvu hc.symm, hmem⟩
        exact ih _ s' hmem' hnotin' hrun
      · rw [if_neg hv] at hrun
        cases hrun

/-- Claim C9: `UidAllocator::allocate` returns the smallest id in
`[low, high)` not currently in use and marks it used, returning `None`
exactly when every id of the range is in use; `deallocate` removes an
id from the in-use set and panics exactly when the id was not in use;
and an id handed out by `allocate` stays in use across any sequence of
operations that does not deallocate it, so no later `allocate` hands
it out again. -/
theorem c9_uid_allocator (s : UidAllocator) :
    (∀ u s', s.allocate = some (u, s') →
      s.low ≤ u ∧ u < s.high ∧ u ∉ s.used ∧
      (∀ v, s.low ≤ v → v < u → v ∈ s.used) ∧
      s' = { s with used := insert u s.used }) ∧
    (s.allocate = none ↔ ∀ v, s.low ≤ v → v < s.high → v ∈ s.used) ∧
    (∀ u, s.deallocate u = none ↔ u ∉ s.used) ∧
    (∀ u s', s.deallocate u = some s' → s' = { s with used := s.used.erase u }) ∧
    (∀ u s₀ ops s₁, s.allocate = some (u, s₀) →
      UidAllocator.Op.dealloc u ∉ ops → UidAllocator.runOps s₀ ops = some s₁ →
      u ∈ s₁.used ∧ ∀ u' s₂, s₁.allocate = some (u', s₂) → u' ≠ u) := by
  refine ⟨fun u s' h => allocate_eq_some h, allocate_eq_none, ?_, ?_, ?_⟩
  · intro u
    unfold UidAllocator.deallocate
    by_cases hu : u ∈ s.used <;> simp [hu]
  · intro u s' h
    unfold UidAllocator.deallocate at h
    by_cases hu : u ∈ s.used
    · rw [if_pos hu] at h
      injection h with h
      exact h.symm
    · rw [if_neg hu] at h
      cases h
  · intro u s₀ ops s₁ halloc hnotin hrun
    have hs₀ := (allocate_eq_some halloc).2.2.2.2
    have hmem₀ : u ∈ s₀.used := by rw [hs₀]; exact Finset.mem_insert_self u s.used
    have hmem₁ : u ∈ s₁.used := runOps_preserves_mem ops s₀ s₁ hmem₀ hnotin hrun
    refine ⟨hmem₁, ?_⟩
    intro u' s₂ h'
    have := (allocate_eq_some h').2.2.1
    intro hc
    exact this (hc ▸ hmem₁)

/-- Witness for `c9_uid_allocator`: starting from `[10, 12)` with
nothing in use, allocating twice yields 10 then 11, 10 remains in use,
and a further allocate cannot return 10. -/
theorem c9_uid_allocator_witness :
    (10 : ℕ) ∈ (UidAllocator.mk 10 12 (insert 11 {10})).used ∧
    (∀ u' s₂, UidAllocator.allocate ⟨10, 12, insert 11 {10}⟩ = some (u', s₂) → u' ≠ 10) :=
  (c9_uid_allocator ⟨10, 12, ∅⟩).2.2.2.2 10 ⟨10, 12, {10}⟩
    [UidAllocator.Op.alloc] ⟨10, 12, insert 11 {10}⟩ rfl (by decide) rfl

theorem foldl_cpuStatStep_of_none (lines : List (List Char)) (init : ℕ)
    (h : ∀ l ∈ lines, lineValue l = none) :
    lines.foldl cpuStatStep init = init := by
  induction lines generalizing init with
  | nil => rfl
  | cons l rest ih =>
    rw [List.foldl_cons]
    have hl : lineValue l = none := h l (List.mem_cons_self _ _)
    have hstep : cpuStatStep init l = init := by rw [cpuStatStep, hl]
    rw [hstep]
    exact ih init fun x hx => h x (List.mem_cons_of_mem _ hx)

/-- Claim C10: when no `cpu.stat` line beginning with `"usage_usec"`
has a value that parses as a `u64`, `get_cpu_usage` yields
`u64::MAX`; when such a line is present (the last one winning, here
with no later parsing line), it yields the parsed value times 1000;
`resource_usage` wraps that value with `memory: None`; and the
watchdog's comparison treats usage `u64::MAX` as the CPU limit being
exceeded for every limit below `u64::MAX`, killing the sandbox. -/
theorem c10_cgroup_v2_cpu_usage :
    (∀ lines : List (List Char),
      (∀ l ∈ lines, (String.toList "usage_usec").isPrefixOf l = true →
        parseU64 (trimEndMatchesChar '\n'
          (trimStartMatchesList (String.toList "usage_usec ") l)) = none) →
      getCpuUsage lines = 2 ^ 64 - 1) ∧
    (∀ (l₁ : List (List Char)) (line : List Char) (l₂ : List (List Char)) (v : ℕ),
      (String.toList "usage_usec").isPrefixOf line = true →
      parseU64 (trimEndMatchesChar '\n'
        (trimStartMatchesList (String.toList "usage_usec ") line)) = some v →
      (∀ l ∈ l₂, (String.toList "usage_usec").isPrefixOf l = true →
        parseU64 (trimEndMatchesChar '\n'
          (trimStartMatchesList (String.toList "usage_usec ") l)) = none) →
      v * 1000 < 2 ^ 64 →
      getCpuUsage (l₁ ++ line :: l₂) = v * 1000) ∧
    (∀ lines, cgroupV2ResourceUsage lines =
      { time := getCpuUsage lines, memory := none }) ∧
    (∀ elapsed cl rl cell, cl < 2 ^ 64 - 1 →
      watchdogTick (some (2 ^ 64 - 1)) elapsed cl rl cell =
        { event := some .cpuTle, cell := none, exited := true }) := by
  have hnone : ∀ l : List Char,
      ((String.toList "usage_usec").isPrefixOf l = true →
        parseU64 (trimEndMatchesChar '\n'
          (trimStartMatchesList (String.toList "usage_usec ") l)) = none) →
      lineValue l = none := by
    intro l hl
    rw [lineValue]
    split
    · exact hl (by assumption)
    · rfl
  refine ⟨?_, ?_, ?_, ?_⟩
  · intro lines h
    exact foldl_cpuStatStep_of_none lines _ fun l hl => hnone l (h l hl)
  · intro l₁ line l₂ v hpref hparse h₂ hsmall
    have hline : lineValue line = some v := by rw [lineValue, if_pos hpref]; exact hparse
    have hstep : ∀ init, cpuStatStep init line = v * 1000 % 2 ^ 64 := by
      intro init; rw [cpuStatStep, hline]
    rw [getCpuUsage, List.foldl_append, List.foldl_cons, hstep,
      foldl_cpuStatStep_of_none l₂ _ fun l hl => hnone l (h₂ l hl)]
    exact Nat.mod_eq_of_lt hsmall
  · intro lines
    rfl
  · intro elapsed cl rl cell hcl
    simp only [watchdogTick, Option.getD_some]
    rw [if_neg]
    · rw [if_pos]
      omega
    · push_neg
      intro h
      omega

/-- Witness for `c10_cgroup_v2_cpu_usage`: a malformed `cpu.stat`
yields `u64::MAX`; one with `usage_usec 250` yields 250000; and the
watchdog kills on the `u64::MAX` reading under a 1-second limit. -/
theorem c10_cgroup_v2_cpu_usage_witness :
    getCpuUsage [String.toList "nr_periods 0", String.toList "usage_abc 5"] = 2 ^ 64 - 1 ∧
    getCpuUsage [String.toList "user_usec 17", String.toList "usage_usec 250"] = 250000 ∧
    cgroupV2ResourceUsage [String.toList "usage_usec 250"] =
      { time := getCpuUsage [String.toList "usage_usec 250"], memory := none } ∧
    watchdogTick (some (2 ^ 64 - 1)) 0 1000000000 0 (some 4) =
      { event := some .cpuTle, cell := none, exited := true } :=
  ⟨c10_cgroup_v2_cpu_usage.1 _ (by decide),
   c10_cgroup_v2_cpu_usage.2.1 [String.toList "user_usec 17"]
     (String.toList "usage_usec 250") [] 250 (by decide) (by decide)
     (by decide) (by norm_num),
   c10_cgroup_v2_cpu_usage.2.2.1 _,
   c10_cgroup_v2_cpu_usage.2.2.2 0 1000000000 0 (some 4) (by norm_num)⟩

end Minion
